import Mathlib

/-!
# golang-utils: the message-box utility and the DinoPass URL builder

A shallow embedding of `utils-windows-msgbox/main.go` and of `buildURL` from
`go-dinopass-api.go`, with the properties of the timed decision prompt proved
on it.

The two collaborators of `main.go` that live outside the program (the native
`MessageBoxTimeoutW` procedure and `exec.Cmd.Start`) are fields of a
`Platform` value, so every theorem quantifies over what they answer. A run
of `main` is the list of its observable effects in program order.

Conventions: Go `int` is the 64-bit `int` of windows/amd64, kept as an `Int`
wrapped explicitly; `uint32`, `uintptr` are `Nat`. Flag values come from the
command line and so hold no NUL, which is what `syscall.StringToUTF16Ptr`
needs to return.
-/

namespace MsgBox

/-! ## Machine integers -/

/-- Go `int` arithmetic on a 64-bit target: results wrap into `[-2^63, 2^63)`. -/
def wrapInt (x : Int) : Int := (x + 2 ^ 63) % 2 ^ 64 - 2 ^ 63

/-- The conversion `uint32(x)`: the low 32 bits. -/
def toUint32 (x : Int) : Nat := (x % 2 ^ 32).toNat

/-- The conversion `int(ret)` of a `uintptr`. -/
def uintptrToInt (ret : Nat) : Int := wrapInt (Int.ofNat ret)

/-! ## Constants of `main` -/

/-- Single OK button. -/
def MB_OK : Nat := 0x0

/-- Yes and No buttons. -/
def MB_YESNO : Nat := 0x04

/-- User clicked Yes. -/
def IDYES : Int := 6

/-- Message box timed out. -/
def IDTIMEOUT : Int := 5

/-! ## The platform boundary and the observable run -/

/-- The two native collaborators. `procMessageBoxTimeout` answers the call
`procMessageBoxTimeout.Call(hwnd, text, caption, uType, wLanguageID,
milliseconds)` with its first result, or with `none` when the call does not
return; `cmdStart path` answers `exec.Command(path).Start()` with the text of
its error, or with `none` for a `nil` error. -/
structure Platform where
  procMessageBoxTimeout : Nat → String → String → Nat → Nat → Nat → Option Nat
  cmdStart : String → Option String

/-- One observable effect of the program. -/
inductive Event where
  | stdout (line : String)
  | messageBox (hwnd : Nat) (text caption : String) (uType wLanguageID milliseconds : Nat)
  | start (path : String)
  deriving DecidableEq

/-- The command-line flags `-msg -timeout -exe -yesno -autoyes` after `flag.Parse()`. -/
structure Flags where
  msg : String
  timeout : Int
  exePath : String
  yesNo : Bool
  autoYes : Bool
  deriving DecidableEq

/-- The effects of a run in program order, and whether `main` returned
(`false`: control did not come back from the dialog call). -/
structure Run where
  trace : List Event
  returned : Bool
  deriving DecidableEq

/-- The function `MessageBoxTimeout` (main.go:29-44): one call of the native procedure,
its error results dropped, its first result converted with `int(ret)`. -/
def MessageBoxTimeout (P : Platform) (hwnd : Nat) (text caption : String)
    (uType wLanguageID milliseconds : Nat) : Option Int :=
  match P.procMessageBoxTimeout hwnd text caption uType wLanguageID milliseconds with
  | none => none
  | some ret => some (uintptrToInt ret)

/-- The argument `uint32(*timeout*1000)` of both dialog calls (main.go:76, 99). -/
def timeoutMillis (timeout : Int) : Nat := toUint32 (wrapInt (timeout * 1000))

/-- The function `main` (main.go:46-102) from `flag.Parse()` on: each print, dialog call
and `cmd.Start()` call is recorded in program order. -/
def main (P : Platform) (f : Flags) : Run :=
  let t0 := [Event.stdout ("Showing message box: " ++ f.msg ++ "\n")]
  if f.yesNo then
    if f.exePath = "" then
      ⟨t0 ++ [Event.stdout
        "Please provide an executable to run using -exe flag when using Yes/No box.\n"], true⟩
    else
      let t1 := t0 ++ [Event.messageBox 0 f.msg "Go MsgBox" MB_YESNO 0 (timeoutMillis f.timeout)]
      match MessageBoxTimeout P 0 f.msg "Go MsgBox" MB_YESNO 0 (timeoutMillis f.timeout) with
      | none => ⟨t1, false⟩
      | some ret =>
        if ret = IDYES ∨ (ret = IDTIMEOUT ∧ f.autoYes = true) then
          let t2 := t1 ++ [Event.stdout
            ("Yes clicked or auto-yes triggered, running executable: " ++ f.exePath ++ "\n"),
            Event.start f.exePath]
          match P.cmdStart f.exePath with
          | some err =>
            ⟨t2 ++ [Event.stdout ("Failed to start executable: " ++ err ++ "\n")], true⟩
          | none => ⟨t2 ++ [Event.stdout "Executable started successfully.\n"], true⟩
        else
          ⟨t1 ++ [Event.stdout "No clicked or timeout without auto-yes.\n"], true⟩
  else
    let t1 := t0 ++ [Event.messageBox 0 f.msg "Go MsgBox" MB_OK 0 (timeoutMillis f.timeout)]
    match MessageBoxTimeout P 0 f.msg "Go MsgBox" MB_OK 0 (timeoutMillis f.timeout) with
    | none => ⟨t1, false⟩
    | some _ => ⟨t1 ++ [Event.stdout "OK message box closed.\n"], true⟩

/-! ## Observations on a run -/

/-- Whether an event is a call of `cmd.Start()`. -/
def Event.isStart : Event → Bool
  | Event.start _ => true
  | _ => false

/-- Whether an event is a call of the dialog. -/
def Event.isMessageBox : Event → Bool
  | Event.messageBox _ _ _ _ _ _ => true
  | _ => false

/-- How many times the launcher (`cmd.Start()`) was invoked. -/
def Run.launches (r : Run) : Nat := r.trace.countP Event.isStart

/-- How many times the dialog was shown. -/
def Run.prompts (r : Run) : Nat := r.trace.countP Event.isMessageBox

/-- Whether the run printed the given line. -/
def Run.printed (r : Run) (line : String) : Bool := decide (Event.stdout line ∈ r.trace)

/-- The millisecond arguments of the dialog calls of a run, in order. -/
def Run.durations (r : Run) : List Nat :=
  r.trace.filterMap fun e =>
    match e with
    | Event.messageBox _ _ _ _ _ ms => some ms
    | _ => none

/-- The status line of the launcher branch (Decision Proceed). -/
def proceedLine (exePath : String) : String :=
  "Yes clicked or auto-yes triggered, running executable: " ++ exePath ++ "\n"

/-- The status line of the else branch (Decision Skip). -/
def skipLine : String := "No clicked or timeout without auto-yes.\n"

/-- A platform whose dialog answers `ret` and whose `cmd.Start()` answers `err`. -/
def constPlatform (ret : Option Nat) (err : Option String) : Platform :=
  ⟨fun _ _ _ _ _ _ => ret, fun _ => err⟩

/-- The status line printed after `cmd.Start()` answered `err`. -/
def launchLine : Option String → String
  | some err => "Failed to start executable: " ++ err ++ "\n"
  | none => "Executable started successfully.\n"

end MsgBox

namespace DinoPass

/-! ## The pieces of `net/url` and `fmt` that `buildURL` calls -/

/-- The fields of `url.URL` that `buildURL` reads or writes. -/
structure URL where
  scheme : String
  host : String
  path : String
  rawQuery : String
  deriving DecidableEq

/-- The type `url.Values`, a map from key to values, as an association list
with one entry per key. -/
abbrev Values := List (String × List String)

/-- The scan of `getScheme`: `seen` holds the characters before the current
one, in reverse. Answers the scheme and the rest, or the error text. -/
def getSchemeAux (rawURL : List Char) :
    List Char → List Char → Except String (List Char × List Char)
  | _, [] => Except.ok ([], rawURL)
  | seen, c :: rest =>
    if c.isAlpha then getSchemeAux rawURL (c :: seen) rest
    else if c.isDigit ∨ c = '+' ∨ c = '-' ∨ c = '.' then
      if seen = [] then Except.ok ([], rawURL) else getSchemeAux rawURL (c :: seen) rest
    else if c = ':' then
      if seen = [] then Except.error "missing protocol scheme"
      else Except.ok (seen.reverse, rest)
    else Except.ok ([], rawURL)

/-- The function `getScheme` of `net/url`. -/
def getScheme (rawURL : List Char) : Except String (List Char × List Char) :=
  getSchemeAux rawURL [] rawURL

/-- Whether the string holds an ASCII control character (`stringContainsCTLByte`). -/
def containsCTL (s : List Char) : Bool := s.any fun c => c.val < 0x20 ∨ c.val = 0x7f

/-- The function `url.Parse` on absolute URLs of the shape
`scheme://host/path?query` with no fragment, user info or percent escape (the
shape of `base + "strong"`): a control character and a missing scheme are
errors, the query is cut at the first `?`, the authority runs from `//` to the
next `/`. -/
def urlParse (rawURL : String) : Except String URL :=
  if containsCTL rawURL.data then Except.error "net/url: invalid control character in URL"
  else
    match getScheme rawURL.data with
    | Except.error e => Except.error e
    | Except.ok (scheme, rest) =>
      let beforeQuery := rest.takeWhile (· ≠ '?')
      let rawQuery := (rest.dropWhile (· ≠ '?')).drop 1
      match beforeQuery with
      | '/' :: '/' :: authority =>
        Except.ok ⟨String.mk (scheme.map Char.toLower),
          String.mk (authority.takeWhile (· ≠ '/')),
          String.mk (authority.dropWhile (· ≠ '/')),
          String.mk rawQuery⟩
      | path =>
        Except.ok ⟨String.mk (scheme.map Char.toLower), "", String.mk path, String.mk rawQuery⟩

/-- The method `(*URL).String` for a URL with a scheme and a host whose path
needs no escaping. -/
def URL.toString (u : URL) : String :=
  u.scheme ++ ":" ++ "//" ++ u.host ++ u.path ++
    (if u.rawQuery = "" then "" else "?" ++ u.rawQuery)

/-- The method `Values.Has`. -/
def Values.has (q : Values) (key : String) : Bool := q.any fun kv => kv.1 = key

/-- The method `Values.Add`: the value joins the values of the key. -/
def Values.add (q : Values) (key value : String) : Values :=
  if q.has key then q.map fun kv => if kv.1 = key then (kv.1, kv.2 ++ [value]) else kv
  else q ++ [(key, [value])]

/-- The method `Values.Set`: the key now maps to the one value. -/
def Values.set (q : Values) (key value : String) : Values :=
  (key, [value]) :: q.filter fun kv => kv.1 ≠ key

/-- The function `url.ParseQuery` on a query without percent escapes: the
segments between `&`, each cut at its first `=`; an empty segment is skipped. -/
def parseQuery (query : List Char) : Values :=
  (query.splitOn '&').foldl
    (fun q seg =>
      if seg = [] then q
      else q.add (String.mk (seg.takeWhile (· ≠ '='))) (String.mk ((seg.dropWhile (· ≠ '=')).drop 1)))
    []

/-- The method `(*URL).Query`: the parsed `RawQuery`. -/
def URL.query (u : URL) : Values := parseQuery u.rawQuery.data

/-- The predicate `shouldEscape(c, encodeQueryComponent)` on a byte: all but
letters, digits and `-`, `_`, `.`, `~`. -/
def shouldEscape (c : Nat) : Bool :=
  !((0x61 ≤ c ∧ c ≤ 0x7a) ∨ (0x41 ≤ c ∧ c ≤ 0x5a) ∨ (0x30 ≤ c ∧ c ≤ 0x39) ∨
    c = 0x2d ∨ c = 0x5f ∨ c = 0x2e ∨ c = 0x7e)

/-- One upper-case hexadecimal digit. -/
def upperHex (n : Nat) : Char := "0123456789ABCDEF".data.getD n '0'

/-- The escape of one byte of a query component. -/
def escapeByte (c : Nat) : List Char :=
  if c = 0x20 then ['+']
  else if shouldEscape c then ['%', upperHex (c / 16), upperHex (c % 16)]
  else [Char.ofNat c]

/-- The function `url.QueryEscape`, byte by byte over the UTF-8 encoding. -/
def queryEscape (s : String) : String :=
  String.mk (s.data.flatMap fun ch =>
    (String.utf8EncodeChar ch).flatMap fun b => escapeByte b.toNat)

/-- Byte-wise `a ≤ b` on strings, the order `Values.Encode` sorts its keys in
(UTF-8 keeps the order of code points). -/
def keyLE : List Char → List Char → Bool
  | [], _ => true
  | _ :: _, [] => false
  | a :: as, b :: bs =>
    if a.val < b.val then true else if b.val < a.val then false else keyLE as bs

/-- Insertion of an entry into a list of entries sorted by key. -/
def insertByKey (kv : String × List String) : Values → Values
  | [] => [kv]
  | x :: xs => if keyLE kv.1.data x.1.data then kv :: x :: xs else x :: insertByKey kv xs

/-- The entries sorted by key. -/
def sortByKey : Values → Values
  | [] => []
  | kv :: rest => insertByKey kv (sortByKey rest)

/-- The method `Values.Encode`: the escaped `key=value` pairs, keys sorted,
joined by `&`. -/
def Values.encode (q : Values) : String :=
  "&".intercalate
    ((sortByKey q).flatMap fun kv => kv.2.map fun v => queryEscape kv.1 ++ "=" ++ queryEscape v)

/-! ## `buildURL` -/

/-- The base of every request URL. -/
def base : String := "https://www.dinopass.com/password/"

/-- The query `q` of `buildURL` after its `Set` calls (go-dinopass-api.go:41-51). -/
def strongQuery (u : URL) (length : Int) (useSymbols useNumbers useCapitals : Bool) : Values :=
  let q := u.query
  let q := if length ≥ 7 ∧ length ≤ 20 then q.set "length" (toString length) else q
  let q := q.set "useSymbols" (toString useSymbols)
  let q := q.set "useNumbers" (toString useNumbers)
  q.set "useCapitals" (toString useCapitals)

/-- The function `buildURL` (go-dinopass-api.go:15-55): the URL and the error (`none`
for `nil`). -/
def buildURL (complexity : String) (length : Int) (useSymbols useNumbers useCapitals : Bool) :
    String × Option String :=
  if complexity = "simple" then (base ++ "simple", none)
  else if complexity ≠ "strong" then ("", some ("invalid complexity: " ++ complexity))
  else
    match urlParse (base ++ "strong") with
    | Except.error err => ("", some err)
    | Except.ok u =>
      let q := strongQuery u length useSymbols useNumbers useCapitals
      ((URL.mk u.scheme u.host u.path q.encode).toString, none)

/-- Whether a URL carries the query parameter `key`. -/
def hasQueryParam (rawURL key : String) : Bool :=
  match urlParse rawURL with
  | Except.ok u => u.query.has key
  | Except.error _ => false

end DinoPass

/-! # Theorems -/

namespace MsgBox

/-! ## Machine integers -/

theorem timeoutMillis_eq (t : Int) : timeoutMillis t = ((t * 1000) % 2 ^ 32).toNat := by
  unfold timeoutMillis toUint32 wrapInt
  congr 1
  omega

theorem timeoutMillis_of_inRange (t : Int) (h0 : 0 ≤ t) (h1 : t ≤ 4294967) :
    (timeoutMillis t : Int) = t * 1000 := by
  rw [timeoutMillis_eq]
  omega

theorem uintptrToInt_small (ret : Nat) (h : ret < 2 ^ 63) : uintptrToInt ret = ret := by
  unfold uintptrToInt wrapInt
  simp only [Int.ofNat_eq_coe]
  omega

/-! ## Shape of the runs -/

theorem main_yesNo_proceed (P : Platform) (msg exe : String) (t : Int) (autoYes : Bool)
    (ret : Int) (hexe : exe ≠ "")
    (hret : MessageBoxTimeout P 0 msg "Go MsgBox" MB_YESNO 0 (timeoutMillis t) = some ret)
    (hyes : ret = IDYES ∨ (ret = IDTIMEOUT ∧ autoYes = true)) :
    main P ⟨msg, t, exe, true, autoYes⟩ =
      ⟨[Event.stdout ("Showing message box: " ++ msg ++ "\n"),
        Event.messageBox 0 msg "Go MsgBox" MB_YESNO 0 (timeoutMillis t),
        Event.stdout (proceedLine exe),
        Event.start exe,
        Event.stdout (launchLine (P.cmdStart exe))], true⟩ := by
  unfold main
  simp only [hexe, hret, hyes, if_true, if_false, proceedLine]
  cases hs : P.cmdStart exe <;> simp [launchLine]

theorem main_yesNo_skip (P : Platform) (msg exe : String) (t : Int) (autoYes : Bool)
    (ret : Int) (hexe : exe ≠ "")
    (hret : MessageBoxTimeout P 0 msg "Go MsgBox" MB_YESNO 0 (timeoutMillis t) = some ret)
    (hno : ¬ (ret = IDYES ∨ (ret = IDTIMEOUT ∧ autoYes = true))) :
    main P ⟨msg, t, exe, true, autoYes⟩ =
      ⟨[Event.stdout ("Showing message box: " ++ msg ++ "\n"),
        Event.messageBox 0 msg "Go MsgBox" MB_YESNO 0 (timeoutMillis t),
        Event.stdout skipLine], true⟩ := by
  unfold main
  simp only [hexe, hret, hno, if_true, if_false, skipLine]
  simp

theorem main_durations (P : Platform) (msg exe : String) (t : Int) (yesNo autoYes : Bool)
    (hexe : yesNo = true → exe ≠ "") :
    (main P ⟨msg, t, exe, yesNo, autoYes⟩).durations = [timeoutMillis t] := by
  cases yesNo with
  | false =>
    unfold main
    simp only [Bool.false_eq_true, if_false]
    cases MessageBoxTimeout P 0 msg "Go MsgBox" MB_OK 0 (timeoutMillis t) <;>
      simp [Run.durations]
  | true =>
    have hx := hexe rfl
    unfold main
    simp only [if_true, hx, if_false]
    cases MessageBoxTimeout P 0 msg "Go MsgBox" MB_YESNO 0 (timeoutMillis t) with
    | none => simp [Run.durations]
    | some ret =>
      by_cases hy : ret = IDYES ∨ (ret = IDTIMEOUT ∧ autoYes = true)
      · simp only [hy, if_true]
        cases P.cmdStart exe <;> simp [Run.durations]
      · simp only [hy, if_false]
        simp [Run.durations]

end MsgBox

namespace MsgBox

/-! ## Status lines are told apart by their first character -/

theorem ne_of_head {a b : String} (h : a.data.head? ≠ b.data.head?) : a ≠ b :=
  fun e => h (by rw [e])

theorem showing_ne_skipLine (msg : String) :
    "Showing message box: " ++ msg ++ "\n" ≠ skipLine :=
  ne_of_head (by simp [skipLine, String.data_append])

theorem showing_ne_proceedLine (msg exe : String) :
    "Showing message box: " ++ msg ++ "\n" ≠ proceedLine exe :=
  ne_of_head (by simp [proceedLine, String.data_append])

theorem proceedLine_ne_skipLine (exe : String) : proceedLine exe ≠ skipLine :=
  ne_of_head (by simp [proceedLine, skipLine, String.data_append])

theorem launchLine_ne_skipLine (err : Option String) : launchLine err ≠ skipLine := by
  cases err <;> exact ne_of_head (by simp [launchLine, skipLine, String.data_append])

theorem showing_ne_started (msg : String) :
    "Showing message box: " ++ msg ++ "\n" ≠ "Executable started successfully.\n" :=
  ne_of_head (by simp [String.data_append])

theorem proceedLine_ne_started (exe : String) :
    proceedLine exe ≠ "Executable started successfully.\n" :=
  ne_of_head (by simp [proceedLine, String.data_append])

theorem failed_ne_started (err : String) :
    "Failed to start executable: " ++ err ++ "\n" ≠ "Executable started successfully.\n" :=
  ne_of_head (by simp [String.data_append])

/-! ## The decision of the Yes/No prompt -/

/-- C1: in Yes/No mode with a non-empty executable path an explicit answer is
not altered by the timeout policy. For both values of `autoYes`, the dialog
code 6 (IDYES) takes the launcher branch (Decision Proceed): the run prints the
proceed line, calls `cmd.Start()` exactly once and does not print the skip line;
the dialog code 7 (IDNO) takes the else branch (Decision Skip): the run prints
the skip line, never calls `cmd.Start()` and does not print the proceed line. -/
theorem explicit_answer_not_altered_by_timeout_policy (P : Platform) (msg exe : String)
    (t : Int) (autoYes : Bool) (hexe : exe ≠ "") :
    (MessageBoxTimeout P 0 msg "Go MsgBox" MB_YESNO 0 (timeoutMillis t) = some IDYES →
      main P ⟨msg, t, exe, true, autoYes⟩ =
        ⟨[Event.stdout ("Showing message box: " ++ msg ++ "\n"),
          Event.messageBox 0 msg "Go MsgBox" MB_YESNO 0 (timeoutMillis t),
          Event.stdout (proceedLine exe),
          Event.start exe,
          Event.stdout (launchLine (P.cmdStart exe))], true⟩ ∧
      (main P ⟨msg, t, exe, true, autoYes⟩).launches = 1 ∧
      (main P ⟨msg, t, exe, true, autoYes⟩).printed skipLine = false) ∧
    (MessageBoxTimeout P 0 msg "Go MsgBox" MB_YESNO 0 (timeoutMillis t) = some 7 →
      main P ⟨msg, t, exe, true, autoYes⟩ =
        ⟨[Event.stdout ("Showing message box: " ++ msg ++ "\n"),
          Event.messageBox 0 msg "Go MsgBox" MB_YESNO 0 (timeoutMillis t),
          Event.stdout skipLine], true⟩ ∧
      (main P ⟨msg, t, exe, true, autoYes⟩).launches = 0 ∧
      (main P ⟨msg, t, exe, true, autoYes⟩).printed (proceedLine exe) = false) := by
  constructor
  · intro hret
    have h := main_yesNo_proceed P msg exe t autoYes IDYES hexe hret (Or.inl rfl)
    refine ⟨h, ?_, ?_⟩
    · rw [h]; simp [Run.launches, Event.isStart]
    · rw [h]
      simp [Run.printed, (showing_ne_skipLine msg).symm, (proceedLine_ne_skipLine exe).symm,
        (launchLine_ne_skipLine (P.cmdStart exe)).symm]
  · intro hret
    have hno : ¬ ((7 : Int) = IDYES ∨ ((7 : Int) = IDTIMEOUT ∧ autoYes = true)) := by
      simp [IDYES, IDTIMEOUT]
    have h := main_yesNo_skip P msg exe t autoYes 7 hexe hret hno
    refine ⟨h, ?_, ?_⟩
    · rw [h]; simp [Run.launches, Event.isStart]
    · rw [h]
      simp [Run.printed, (showing_ne_proceedLine msg exe).symm, proceedLine_ne_skipLine]

theorem explicit_answer_not_altered_by_timeout_policy_witness :
    "app.exe" ≠ "" ∧
    (main (constPlatform (some 6) none) ⟨"Hello!", 5, "app.exe", true, false⟩).launches = 1 ∧
    (main (constPlatform (some 7) none) ⟨"Hello!", 5, "app.exe", true, true⟩).launches = 0 :=
  ⟨by decide,
    ((explicit_answer_not_altered_by_timeout_policy (constPlatform (some 6) none)
      "Hello!" "app.exe" 5 false (by decide)).1 (by decide)).2.1,
    ((explicit_answer_not_altered_by_timeout_policy (constPlatform (some 7) none)
      "Hello!" "app.exe" 5 true (by decide)).2 (by decide)).2.1⟩

/-- C2: in Yes/No mode with a non-empty executable path, when the dialog
answers the timeout code 5 (IDTIMEOUT) the launcher branch is taken exactly
when `autoYes` is set: with `autoYes = true` the run prints the proceed line
and calls `cmd.Start()` exactly once; with `autoYes = false` it prints the skip
line and never calls `cmd.Start()`. -/
theorem timeout_proceeds_iff_autoYes (P : Platform) (msg exe : String) (t : Int)
    (autoYes : Bool) (hexe : exe ≠ "")
    (hret : MessageBoxTimeout P 0 msg "Go MsgBox" MB_YESNO 0 (timeoutMillis t)
      = some IDTIMEOUT) :
    ((main P ⟨msg, t, exe, true, autoYes⟩).printed (proceedLine exe) = true ↔
      autoYes = true) ∧
    (autoYes = true →
      main P ⟨msg, t, exe, true, autoYes⟩ =
        ⟨[Event.stdout ("Showing message box: " ++ msg ++ "\n"),
          Event.messageBox 0 msg "Go MsgBox" MB_YESNO 0 (timeoutMillis t),
          Event.stdout (proceedLine exe),
          Event.start exe,
          Event.stdout (launchLine (P.cmdStart exe))], true⟩ ∧
      (main P ⟨msg, t, exe, true, autoYes⟩).launches = 1) ∧
    (autoYes = false →
      main P ⟨msg, t, exe, true, autoYes⟩ =
        ⟨[Event.stdout ("Showing message box: " ++ msg ++ "\n"),
          Event.messageBox 0 msg "Go MsgBox" MB_YESNO 0 (timeoutMillis t),
          Event.stdout skipLine], true⟩ ∧
      (main P ⟨msg, t, exe, true, autoYes⟩).launches = 0) := by
  cases autoYes with
  | true =>
    have h := main_yesNo_proceed P msg exe t true IDTIMEOUT hexe hret (Or.inr ⟨rfl, rfl⟩)
    refine ⟨?_, fun _ => ⟨h, ?_⟩, fun hf => absurd hf (by decide)⟩
    · rw [h]; simp [Run.printed]
    · rw [h]; simp [Run.launches, Event.isStart]
  | false =>
    have hno : ¬ (IDTIMEOUT = IDYES ∨ (IDTIMEOUT = IDTIMEOUT ∧ false = true)) := by
      simp [IDYES, IDTIMEOUT]
    have h := main_yesNo_skip P msg exe t false IDTIMEOUT hexe hret hno
    refine ⟨?_, fun hf => absurd hf (by decide), fun _ => ⟨h, ?_⟩⟩
    · rw [h]
      simp [Run.printed, (showing_ne_proceedLine msg exe).symm, proceedLine_ne_skipLine]
    · rw [h]; simp [Run.launches, Event.isStart]

theorem timeout_proceeds_iff_autoYes_witness :
    "app.exe" ≠ "" ∧
    (main (constPlatform (some 5) none) ⟨"Hello!", 2, "app.exe", true, true⟩).launches = 1 ∧
    (main (constPlatform (some 5) none) ⟨"Hello!", 2, "app.exe", true, false⟩).launches = 0 :=
  ⟨by decide,
    ((timeout_proceeds_iff_autoYes (constPlatform (some 5) none)
      "Hello!" "app.exe" 2 true (by decide) (by decide)).2.1 rfl).2,
    ((timeout_proceeds_iff_autoYes (constPlatform (some 5) none)
      "Hello!" "app.exe" 2 false (by decide) (by decide)).2.2 rfl).2⟩

end MsgBox

namespace MsgBox

/-! ## A dialog call that fails -/

/-- C3 (counterexample): when the native call answers 0, the value of a failed
call, the run is the run of a No answer (code 7): it prints the skip line. The
failure is reported as Skip. -/
theorem presentation_failure_reported_as_skip :
    main (constPlatform (some 0) none) ⟨"Hello!", 5, "app.exe", true, false⟩ =
      main (constPlatform (some 7) none) ⟨"Hello!", 5, "app.exe", true, false⟩ ∧
    (main (constPlatform (some 0) none) ⟨"Hello!", 5, "app.exe", true, false⟩).printed
      skipLine = true := by
  decide

/-- C3 (as amended): in Yes/No mode with a non-empty executable path, when the
native call answers 0 (the call failed), for both values of `autoYes` the
launcher is never invoked; the program has no Abort outcome, the run takes the
else branch and prints the same status line as for a No answer. -/
theorem presentation_failure_takes_else_branch (P : Platform) (msg exe : String) (t : Int)
    (autoYes : Bool) (hexe : exe ≠ "")
    (hret : P.procMessageBoxTimeout 0 msg "Go MsgBox" MB_YESNO 0 (timeoutMillis t) = some 0) :
    main P ⟨msg, t, exe, true, autoYes⟩ =
      ⟨[Event.stdout ("Showing message box: " ++ msg ++ "\n"),
        Event.messageBox 0 msg "Go MsgBox" MB_YESNO 0 (timeoutMillis t),
        Event.stdout skipLine], true⟩ ∧
    (main P ⟨msg, t, exe, true, autoYes⟩).launches = 0 ∧
    (main P ⟨msg, t, exe, true, autoYes⟩).printed skipLine = true := by
  have hm : MessageBoxTimeout P 0 msg "Go MsgBox" MB_YESNO 0 (timeoutMillis t) = some 0 := by
    unfold MessageBoxTimeout
    rw [hret]
    exact congrArg some (uintptrToInt_small 0 (by decide))
  have hno : ¬ ((0 : Int) = IDYES ∨ ((0 : Int) = IDTIMEOUT ∧ autoYes = true)) := by
    simp [IDYES, IDTIMEOUT]
  have h := main_yesNo_skip P msg exe t autoYes 0 hexe hm hno
  refine ⟨h, ?_, ?_⟩
  · rw [h]; simp [Run.launches, Event.isStart]
  · rw [h]; simp [Run.printed]

theorem presentation_failure_takes_else_branch_witness :
    "app.exe" ≠ "" ∧
    (main (constPlatform (some 0) none) ⟨"Hello!", 5, "app.exe", true, true⟩).launches = 0 :=
  ⟨by decide,
    (presentation_failure_takes_else_branch (constPlatform (some 0) none)
      "Hello!" "app.exe" 5 true (by decide) rfl).2.1⟩

/-! ## Configuration error -/

/-- C4 (counterexample): with an empty executable path in Yes/No mode the
rejection is not the first thing that happens and does not carry the text
"missing executable path": the run starts with the opening line of main.go:57,
ends with the usage line of main.go:71, and prints no line made of the text
"missing executable path". -/
theorem empty_path_opening_line_precedes_rejection :
    (main (constPlatform (some 6) none) ⟨"Hello!", 5, "", true, false⟩).trace.head? =
      some (Event.stdout "Showing message box: Hello!\n") ∧
    (main (constPlatform (some 6) none) ⟨"Hello!", 5, "", true, false⟩).trace.getLast? =
      some (Event.stdout
        "Please provide an executable to run using -exe flag when using Yes/No box.\n") ∧
    (main (constPlatform (some 6) none) ⟨"Hello!", 5, "", true, false⟩).printed
      "missing executable path\n" = false ∧
    (main (constPlatform (some 6) none) ⟨"Hello!", 5, "", true, false⟩).printed
      "missing executable path" = false := by
  decide

/-- C4 (as amended): in Yes/No mode with an empty executable path the run is
rejected before the prompt, for every message, timeout, `autoYes` and
platform: it prints the opening line, then the usage line "Please provide an
executable to run using -exe flag when using Yes/No box." and returns; the
dialog is never shown and `cmd.Start()` is never called. -/
theorem empty_path_rejected_before_prompt (P : Platform) (msg : String) (t : Int)
    (autoYes : Bool) :
    main P ⟨msg, t, "", true, autoYes⟩ =
      ⟨[Event.stdout ("Showing message box: " ++ msg ++ "\n"),
        Event.stdout
          "Please provide an executable to run using -exe flag when using Yes/No box.\n"],
        true⟩ ∧
    (main P ⟨msg, t, "", true, autoYes⟩).prompts = 0 ∧
    (main P ⟨msg, t, "", true, autoYes⟩).launches = 0 := by
  have h : main P ⟨msg, t, "", true, autoYes⟩ =
      ⟨[Event.stdout ("Showing message box: " ++ msg ++ "\n"),
        Event.stdout
          "Please provide an executable to run using -exe flag when using Yes/No box.\n"],
        true⟩ := by
    simp [main]
  refine ⟨h, ?_, ?_⟩
  · rw [h]; simp [Run.prompts, Event.isMessageBox]
  · rw [h]; simp [Run.launches, Event.isStart]

/-! ## The launcher -/

/-- C5: when the launcher branch is taken (code IDYES, or IDTIMEOUT with
`autoYes`), `cmd.Start()` is called exactly once. If it answers the error `e`,
the run ends with the failure line carrying the text of `e` unchanged and the
success line is not printed; if it answers no error, the run ends with the
success line. -/
theorem launch_result_reported_once (P : Platform) (msg exe : String) (t : Int)
    (autoYes : Bool) (ret : Int) (hexe : exe ≠ "")
    (hret : MessageBoxTimeout P 0 msg "Go MsgBox" MB_YESNO 0 (timeoutMillis t) = some ret)
    (hyes : ret = IDYES ∨ (ret = IDTIMEOUT ∧ autoYes = true)) :
    (∀ e : String, P.cmdStart exe = some e →
      main P ⟨msg, t, exe, true, autoYes⟩ =
        ⟨[Event.stdout ("Showing message box: " ++ msg ++ "\n"),
          Event.messageBox 0 msg "Go MsgBox" MB_YESNO 0 (timeoutMillis t),
          Event.stdout (proceedLine exe),
          Event.start exe,
          Event.stdout ("Failed to start executable: " ++ e ++ "\n")], true⟩ ∧
      (main P ⟨msg, t, exe, true, autoYes⟩).launches = 1 ∧
      (main P ⟨msg, t, exe, true, autoYes⟩).printed
        "Executable started successfully.\n" = false) ∧
    (P.cmdStart exe = none →
      main P ⟨msg, t, exe, true, autoYes⟩ =
        ⟨[Event.stdout ("Showing message box: " ++ msg ++ "\n"),
          Event.messageBox 0 msg "Go MsgBox" MB_YESNO 0 (timeoutMillis t),
          Event.stdout (proceedLine exe),
          Event.start exe,
          Event.stdout "Executable started successfully.\n"], true⟩ ∧
      (main P ⟨msg, t, exe, true, autoYes⟩).launches = 1) := by
  have h := main_yesNo_proceed P msg exe t autoYes ret hexe hret hyes
  constructor
  · intro e he
    rw [he] at h
    refine ⟨h, ?_, ?_⟩
    · rw [h]; simp [Run.launches, Event.isStart]
    · rw [h]
      simp [Run.printed, launchLine, (showing_ne_started msg).symm,
        (proceedLine_ne_started exe).symm, (failed_ne_started e).symm]
  · intro he
    rw [he] at h
    refine ⟨h, ?_⟩
    rw [h]; simp [Run.launches, Event.isStart]

theorem launch_result_reported_once_witness :
    "app.exe" ≠ "" ∧
    main (constPlatform (some 6) (some "The system cannot find the file specified."))
        ⟨"Hello!", 5, "app.exe", true, false⟩ =
      ⟨[Event.stdout "Showing message box: Hello!\n",
        Event.messageBox 0 "Hello!" "Go MsgBox" 4 0 5000,
        Event.stdout "Yes clicked or auto-yes triggered, running executable: app.exe\n",
        Event.start "app.exe",
        Event.stdout
          "Failed to start executable: The system cannot find the file specified.\n"],
        true⟩ ∧
    (main (constPlatform (some 5) none) ⟨"Hello!", 5, "app.exe", true, true⟩).launches = 1 :=
  ⟨by decide,
    ((launch_result_reported_once
      (constPlatform (some 6) (some "The system cannot find the file specified."))
      "Hello!" "app.exe" 5 false 6 (by decide) (by decide) (by decide)).1
        "The system cannot find the file specified." rfl).1,
    ((launch_result_reported_once (constPlatform (some 5) none)
      "Hello!" "app.exe" 5 true 5 (by decide) (by decide) (by decide)).2 rfl).2⟩

/-! ## Acknowledge mode -/

end MsgBox

namespace MsgBox

/-! ## The duration handed to the dialog -/

/-- C9 (counterexample): a timeout of -1 second becomes the duration
4294966296 ms, not -1000, and a timeout of 4294968 seconds wraps to 704 ms,
not 4294968000, in Yes/No and in Acknowledge mode. -/
theorem duration_wraps_and_loses_sign :
    (main (constPlatform (some 6) none) ⟨"Hello!", -1, "app.exe", true, false⟩).durations
      = [4294966296] ∧
    ((4294966296 : Nat) : Int) ≠ -1 * 1000 ∧
    (main (constPlatform (some 1) none) ⟨"Hello!", 4294968, "", false, false⟩).durations
      = [704] ∧
    ((704 : Nat) : Int) ≠ 4294968 * 1000 := by
  decide

/-- C9 (as amended): for every timeout of `t` whole seconds, in Yes/No mode
(with an executable path) and in Acknowledge mode, the dialog is called once
with the non-negative duration `(t * 1000) mod 2^32` milliseconds; this equals
`t * 1000` exactly when `0 ≤ t ≤ 4294967`. -/
theorem duration_is_low_32_bits (P : Platform) (msg exe : String) (t : Int)
    (yesNo autoYes : Bool) (hexe : yesNo = true → exe ≠ "") :
    (main P ⟨msg, t, exe, yesNo, autoYes⟩).durations = [((t * 1000) % 2 ^ 32).toNat] ∧
    ((((t * 1000) % 2 ^ 32).toNat : Int) = t * 1000 ↔ 0 ≤ t ∧ t ≤ 4294967) := by
  constructor
  · rw [main_durations P msg exe t yesNo autoYes hexe, timeoutMillis_eq]
  · omega

theorem duration_is_low_32_bits_witness :
    (main (constPlatform (some 6) none) ⟨"Hello!", 5, "app.exe", true, false⟩).durations
      = [5000] ∧
    (main (constPlatform (some 1) none) ⟨"Hello!", 3, "", false, false⟩).durations = [3000] :=
  ⟨(duration_is_low_32_bits (constPlatform (some 6) none) "Hello!" "app.exe" 5 true false
      (fun _ => by decide)).1,
    (duration_is_low_32_bits (constPlatform (some 1) none) "Hello!" "" 3 false false
      (fun h => absurd h (by decide))).1⟩

end MsgBox

namespace DinoPass

/-! ## The request URL -/

theorem urlParse_strong :
    urlParse (base ++ "strong") =
      Except.ok ⟨"https", "www.dinopass.com", "/password/strong", ""⟩ := by
  rfl

theorem buildURL_strong_eq (length : Int) (s n c : Bool) :
    buildURL "strong" length s n c =
      ((URL.mk "https" "www.dinopass.com" "/password/strong"
        (strongQuery ⟨"https", "www.dinopass.com", "/password/strong", ""⟩
          length s n c).encode).toString, none) := by
  unfold buildURL
  rw [urlParse_strong]
  simp

theorem buildURL_strong_inRange (length : Int) (s n c : Bool)
    (h7 : 7 ≤ length) (h20 : length ≤ 20) :
    buildURL "strong" length s n c =
      ("https://www.dinopass.com/password/strong?length=" ++ toString length ++
        "&useCapitals=" ++ toString c ++ "&useNumbers=" ++ toString n ++
        "&useSymbols=" ++ toString s, none) ∧
    hasQueryParam (buildURL "strong" length s n c).1 "length" = true := by
  interval_cases length <;> cases s <;> cases n <;> cases c <;> decide

theorem buildURL_strong_outOfRange (length : Int) (s n c : Bool)
    (h : ¬ (7 ≤ length ∧ length ≤ 20)) :
    buildURL "strong" length s n c =
      ("https://www.dinopass.com/password/strong?useCapitals=" ++ toString c ++
        "&useNumbers=" ++ toString n ++ "&useSymbols=" ++ toString s, none) ∧
    hasQueryParam (buildURL "strong" length s n c).1 "length" = false := by
  rw [buildURL_strong_eq]
  have hq : strongQuery ⟨"https", "www.dinopass.com", "/password/strong", ""⟩ length s n c =
      strongQuery ⟨"https", "www.dinopass.com", "/password/strong", ""⟩ 0 s n c := by
    unfold strongQuery
    simp only [ge_iff_le, h, if_false]
    simp
  rw [hq]
  cases s <;> cases n <;> cases c <;> decide

theorem buildURL_invalid (complexity : String) (length : Int) (s n c : Bool)
    (h1 : complexity ≠ "simple") (h2 : complexity ≠ "strong") :
    buildURL complexity length s n c = ("", some ("invalid complexity: " ++ complexity)) := by
  unfold buildURL
  simp [h1, h2]

/-- C10: `buildURL` answers an error exactly when `complexity` is neither
"simple" nor "strong", and then the URL is empty; for "simple" it answers the
base URL followed by "simple" whatever the other arguments; for "strong" it
answers no error for any `length`, and the URL carries the query parameter
`length` exactly when `7 ≤ length ≤ 20`: in that range the URL is
`…/strong?length=<length>&useCapitals=…&useNumbers=…&useSymbols=…`, outside it
the same URL without the `length` parameter. -/
theorem buildURL_contract (complexity : String) (length : Int) (s n c : Bool) :
    ((buildURL complexity length s n c).2 ≠ none ↔
      (complexity ≠ "simple" ∧ complexity ≠ "strong")) ∧
    ((buildURL complexity length s n c).2 ≠ none →
      buildURL complexity length s n c = ("", some ("invalid complexity: " ++ complexity))) ∧
    buildURL "simple" length s n c = (base ++ "simple", none) ∧
    (buildURL "strong" length s n c).2 = none ∧
    (hasQueryParam (buildURL "strong" length s n c).1 "length" = true ↔
      (7 ≤ length ∧ length ≤ 20)) ∧
    (buildURL "strong" length s n c).1 =
      (if 7 ≤ length ∧ length ≤ 20 then
        "https://www.dinopass.com/password/strong?length=" ++ toString length ++
          "&useCapitals=" ++ toString c ++ "&useNumbers=" ++ toString n ++
          "&useSymbols=" ++ toString s
      else
        "https://www.dinopass.com/password/strong?useCapitals=" ++ toString c ++
          "&useNumbers=" ++ toString n ++ "&useSymbols=" ++ toString s) := by
  have hsimple : ∀ l : Int, buildURL "simple" l s n c = (base ++ "simple", none) := by
    intro l; simp [buildURL]
  have hstrong : (buildURL "strong" length s n c).2 = none := by
    rw [buildURL_strong_eq]
  have herr : (buildURL complexity length s n c).2 ≠ none ↔
      (complexity ≠ "simple" ∧ complexity ≠ "strong") := by
    by_cases h1 : complexity = "simple"
    · subst h1; rw [hsimple]; simp
    · by_cases h2 : complexity = "strong"
      · subst h2; rw [hstrong]; simp
      · rw [buildURL_invalid complexity length s n c h1 h2]; simp [h1, h2]
  refine ⟨herr, ?_, hsimple length, hstrong, ?_, ?_⟩
  · intro he
    obtain ⟨h1, h2⟩ := herr.mp he
    exact buildURL_invalid complexity length s n c h1 h2
  · by_cases hr : 7 ≤ length ∧ length ≤ 20
    · simp [(buildURL_strong_inRange length s n c hr.1 hr.2).2, hr]
    · simp [(buildURL_strong_outOfRange length s n c hr).2, hr]
  · by_cases hr : 7 ≤ length ∧ length ≤ 20
    · rw [(buildURL_strong_inRange length s n c hr.1 hr.2).1, if_pos hr]
    · rw [(buildURL_strong_outOfRange length s n c hr).1, if_neg hr]

theorem buildURL_contract_witness :
    (buildURL "medium" 12 false true true).2 ≠ none ∧
    buildURL "medium" 12 false true true = ("", some "invalid complexity: medium") :=
  ⟨by decide, (buildURL_contract "medium" 12 false true true).2.1 (by decide)⟩

end DinoPass
